import Mathlib

/-!
Shallow embedding of the hospital digital-human guide coordinator
(`src/backend/server.js`) and of the device-side lifecycle utilities
(`src/frontend/device-utils.js`), together with theorems settling the
specification claims about them.

Conventions of the embedding:
* JSON values that may arrive with an arbitrary runtime type (the
  `isBusy` and `memory` fields of a report body) are modelled by `JSVal`;
  an absent field is `JSVal.undef`, matching the `=== undefined` checks
  in the source.
* `deviceId` is modelled as `Option String` (`none` = field absent); the
  source tests it with JavaScript falsiness, which for a string is
  emptiness.
* An Express response is a pair of the HTTP status line and the JSON
  body.  `res.status(n).json(b)` sends status `n`; a bare `res.json(b)`
  sends HTTP status 200 regardless of the `code` field inside the body.
* Each handler is a pure function from the server state and the request
  to the response and the next server state.
-/

/-- A guide task, as stored in `guideTaskQueue` in `server.js`. -/
structure GuideTask where
  content : String
  picUrl : String
deriving DecidableEq, Repr

/-- A JavaScript runtime value, restricted to the shapes the handlers can
observe: absent (`undefined`), boolean, (integer) number, string. -/
inductive JSVal where
  | undef : JSVal
  | bool : Bool → JSVal
  | num : Int → JSVal
  | str : String → JSVal
deriving DecidableEq, Repr

/-- A device record as stored in the `deviceStatus` map: the values of the
last accepted report, kept with whatever runtime type they arrived with. -/
structure DeviceRecord where
  isBusy : JSVal
  memory : JSVal
deriving DecidableEq, Repr

/-- JavaScript truthiness of a `JSVal` (used by `device.isBusy ? ... : ...`
and by the `device.isBusy ||` test in `/get-task`). -/
def truthy : JSVal → Bool
  | .undef => false
  | .bool b => b
  | .num n => n != 0
  | .str s => s != ""

/-- JavaScript `ToNumber` on the values `JSVal` can hold; `none` stands for
`NaN`.  Strings are read as integer literals (the only numeric strings the
claims exercise). -/
def jsToNumber : JSVal → Option Int
  | .undef => none
  | .bool b => some (if b then 1 else 0)
  | .num n => some n
  | .str s => s.toInt?

/-- JavaScript `v > bound` for a `JSVal` against a number literal:
`ToNumber` then numeric comparison, false when the conversion yields
`NaN`. -/
def jsGt (v : JSVal) (bound : Int) : Bool :=
  match jsToNumber v with
  | some n => bound < n
  | none => false

/-- JavaScript falsiness of a possibly-absent string field (`!deviceId`):
true when the field is absent or the empty string. -/
def jsFalsy : Option String → Bool
  | none => true
  | some s => s == ""

/-- Lookup in the `deviceStatus` map, modelled as an association list. -/
def findDevice (reg : List (String × DeviceRecord)) (id : String) :
    Option DeviceRecord :=
  (reg.find? (fun p => p.1 == id)).map (fun p => p.2)

/-- `Map.set`: replace the entry for `id` in place when present, append it
otherwise (in `server.js` it is only called on keys already present). -/
def setDevice (reg : List (String × DeviceRecord)) (id : String)
    (v : DeviceRecord) : List (String × DeviceRecord) :=
  if reg.any (fun p => p.1 == id) then
    reg.map (fun p => if p.1 == id then (p.1, v) else p)
  else
    reg ++ [(id, v)]

/-- The mutable state of the coordinator: the `deviceStatus` map and the
`guideTaskQueue` array. -/
structure ServerState where
  deviceStatus : List (String × DeviceRecord)
  guideTaskQueue : List GuideTask
deriving DecidableEq, Repr

/-- An HTTP response: the status line plus the fields of the JSON body
(`code`, optional `msg`, optional `task`). -/
structure HttpResponse where
  status : Nat
  code : Nat
  msg : Option String
  task : Option GuideTask
deriving DecidableEq, Repr

/-- Name of the i-th provisioned screen. -/
def deviceName (i : Nat) : String :=
  "hospital-screen-" ++ toString i

/-- The provisioning loop of `server.js`: 20 devices, each starting with
`isBusy = false, memory = 0`. -/
def initialDeviceStatus : List (String × DeviceRecord) :=
  (List.range 20).map (fun i => (deviceName i, ⟨.bool false, .num 0⟩))

/-- First task of the initial `guideTaskQueue` in `server.js`. -/
def guideTask0 : GuideTask :=
  ⟨"您好，欢迎来到中国西苑苏州医院！内科和外科在1号楼2-3层，儿科在2号楼1层",
    "https://your-server/department-map-1.png"⟩

/-- Second task of the initial `guideTaskQueue` in `server.js`. -/
def guideTask1 : GuideTask :=
  ⟨"挂号可通过医院公众号预约，或在1号楼大厅自助机办理，支持医保支付",
    "https://your-server/registration-guide.png"⟩

/-- Third task of the initial `guideTaskQueue` in `server.js`. -/
def guideTask2 : GuideTask :=
  ⟨"取药处位于1号楼1层大厅东侧，凭处方单和缴费凭证即可领取药品",
    "https://your-server/pharmacy-location.png"⟩

/-- The three tasks `guideTaskQueue` starts with in `server.js`. -/
def initialGuideTaskQueue : List GuideTask :=
  [guideTask0, guideTask1, guideTask2]

/-- The server state right after startup. -/
def initialState : ServerState :=
  ⟨initialDeviceStatus, initialGuideTaskQueue⟩

/-- The ternary `device.isBusy ? '运行中' : '内存过高'` inside the 403
message of `/get-task`. -/
def busyReason (isBusy : JSVal) : String :=
  if truthy isBusy then ("运行中") else ("内存过高")

/-- Handler of `POST /report-status` (`server.js`).  Checks field presence
(`!deviceId || isBusy === undefined || memory === undefined`), then whether
the key is in the map; on success overwrites the record with the received
values as-is. -/
def reportStatus (st : ServerState) (deviceId : Option String)
    (isBusy memory : JSVal) : HttpResponse × ServerState :=
  if jsFalsy deviceId || isBusy == JSVal.undef || memory == JSVal.undef then
    (⟨400, 400, some ("参数不全（需deviceId/isBusy/memory）"), none⟩, st)
  else
    let id := deviceId.getD ""
    if (findDevice st.deviceStatus id).isSome then
      (⟨200, 200, some ("状态更新成功"), none⟩,
        { st with deviceStatus := setDevice st.deviceStatus id ⟨isBusy, memory⟩ })
    else
      (⟨404, 404, some ("设备ID不存在（需为hospital-screen-0至19）"), none⟩, st)

/-- Handler of `GET /get-task` (`server.js`).  Note that only the 400 and
404 branches call `res.status`; the 403, 200 and 204 branches use a bare
`res.json`, hence HTTP status 200. -/
def getTask (st : ServerState) (deviceId : Option String) :
    HttpResponse × ServerState :=
  if jsFalsy deviceId then
    (⟨400, 400, some ("缺少deviceId参数"), none⟩, st)
  else
    let id := deviceId.getD ""
    match findDevice st.deviceStatus id with
    | none => (⟨404, 404, some ("设备ID不存在"), none⟩, st)
    | some device =>
      if truthy device.isBusy || jsGt device.memory 350 then
        (⟨200, 403,
           some ("设备" ++ id ++ "忙（" ++ busyReason device.isBusy ++ "）"),
           none⟩, st)
      else
        match st.guideTaskQueue with
        | t :: rest =>
            (⟨200, 200, none, some t⟩, { st with guideTaskQueue := rest })
        | [] => (⟨200, 204, some ("当前无待分配任务"), none⟩, st)

/-! ### Device-side lifecycle utilities (`src/frontend/device-utils.js`) -/

/-- A local wall-clock instant, as day index plus milliseconds since local
midnight.  `Date` comparison and subtraction act on the epoch-millisecond
value `toMs`; `setHours(2,0,0,0)` keeps the day and sets the millisecond
of day to 7200000; `setDate(getDate()+1)` adds one day keeping the time of
day (daylight-saving shifts are not modelled). -/
structure LocalTime where
  day : Nat
  msOfDay : Nat
deriving DecidableEq, Repr

/-- Epoch-millisecond value of a `LocalTime`. -/
def LocalTime.toMs (t : LocalTime) : Nat :=
  t.day * 86400000 + t.msOfDay

/-- The target-time computation of `scheduleDailyReset` (`device-utils.js`):
copy `now`, `setHours(2, 0, 0, 0)`, and move to the next day only when
`now > resetTime` (strict comparison of epoch milliseconds). -/
def scheduleDailyResetTarget (now : LocalTime) : LocalTime :=
  let resetTime : LocalTime := ⟨now.day, 7200000⟩
  if resetTime.toMs < now.toMs then ⟨now.day + 1, 7200000⟩ else resetTime

/-- Observable device-side state affected by `handleSdkError`
(`device-utils.js`): the pending daily-reset timer (set by
`scheduleDailyReset`, never touched by the error handler), the pending
`initDigitalHumanSdk` retry timers with their delays in milliseconds,
whether the default background has been selected, the blocking alerts
shown, and the console log lines. -/
structure DeviceState where
  resetTargetMs : Option Nat
  reinitDelays : List Nat
  usingDefaultBackground : Bool
  alerts : List String
  logs : List String
deriving DecidableEq, Repr

/-- The `switch (errorCode)` of `handleSdkError` (`device-utils.js`):
10001 raises a blocking alert; 10002 logs and schedules one SDK
re-init after 5000 ms; 30001 switches to the default background; every
other code only logs. -/
def handleSdkError (st : DeviceState) (errorCode : Int) : DeviceState :=
  if errorCode == 10001 then
    { st with alerts := st.alerts ++ [("数字人容器初始化失败，请检查页面结构")] }
  else if errorCode == 10002 then
    { st with logs := st.logs ++ [("尝试重新连接SDK...")],
              reinitDelays := st.reinitDelays ++ [5000] }
  else if errorCode == 30001 then
    { st with usingDefaultBackground := true }
  else
    { st with logs := st.logs ++
        [("未处理的错误码：" ++ toString errorCode ++ "，请参考官方文档")] }

/-- A single-device registry state whose screen reported busy with a
healthy memory level (as after `reportStatus("hospital-screen-1", true,
120)` on a one-screen fleet). -/
def stBusy : ServerState :=
  ⟨[("hospital-screen-1", ⟨.bool true, .num 120⟩)], initialGuideTaskQueue⟩

/-- A single-device registry state whose screen is idle at 100 MB, with
the three initial tasks queued. -/
def stIdle : ServerState :=
  ⟨[("hospital-screen-2", ⟨.bool false, .num 100⟩)], initialGuideTaskQueue⟩

/-- The registry state reached from startup by
`reportStatus("hospital-screen-5", true, 120)`. -/
def stAfterBusyReport : ServerState :=
  (reportStatus initialState (some ("hospital-screen-5")) (.bool true)
    (.num 120)).2

/-- A concrete device-side state: the daily reset pending at the 02:00
target, no retries pending, normal background, nothing shown or logged. -/
def dev0 : DeviceState :=
  ⟨some 7200000, [], false, [], []⟩

/-! ### Helper lemmas -/

/-- After an in-place replacement of the entry for a key that is present,
lookup of that key yields the new value. -/
theorem findDevice_map_replace (reg : List (String × DeviceRecord))
    (id : String) (v : DeviceRecord)
    (h : reg.any (fun p => p.1 == id) = true) :
    findDevice (reg.map (fun p => if p.1 == id then (p.1, v) else p)) id =
      some v := by
  induction reg with
  | nil => simp at h
  | cons p ps ih =>
    by_cases hp : p.1 = id
    · have hb : (p.1 == id) = true := beq_iff_eq.mpr hp
      unfold findDevice
      rw [List.map_cons]
      rw [if_pos hb]
      simp [List.find?_cons, hb]
    · have hb : (p.1 == id) = false := beq_eq_false_iff_ne.mpr hp
      have h2 : ps.any (fun q => q.1 == id) = true := by
        simp only [List.any_cons, hb, Bool.false_or] at h
        exact h
      unfold findDevice at ih ⊢
      rw [List.map_cons]
      rw [if_neg (by simp [hb])]
      simp only [List.find?_cons]
      rw [hb]
      exact ih h2

/-- Appending a fresh entry for a key that is absent makes lookup of that
key yield the new value. -/
theorem findDevice_append_fresh (reg : List (String × DeviceRecord))
    (id : String) (v : DeviceRecord)
    (h : reg.any (fun p => p.1 == id) = false) :
    findDevice (reg ++ [(id, v)]) id = some v := by
  induction reg with
  | nil =>
    unfold findDevice
    rw [List.nil_append, List.find?_cons_of_pos _ (by simp)]
    rfl
  | cons p ps ih =>
    simp only [List.any_cons, Bool.or_eq_false_iff] at h
    unfold findDevice at ih ⊢
    rw [List.cons_append, List.find?_cons_of_neg _ (by simp [h.1])]
    exact ih h.2

/-- `Map.set` followed by `Map.get` on the same key yields the stored
value. -/
theorem findDevice_setDevice_self (reg : List (String × DeviceRecord))
    (id : String) (v : DeviceRecord) :
    findDevice (setDevice reg id v) id = some v := by
  unfold setDevice
  by_cases h : reg.any (fun p => p.1 == id) = true
  · rw [if_pos h]
    exact findDevice_map_replace reg id v h
  · rw [if_neg h]
    exact findDevice_append_fresh reg id v
      (by simp only [Bool.not_eq_true] at h; exact h)

/-- In `/get-task`, a non-empty id whose record exists and passes the
`isBusy || memory > 350` test yields the 403 body (sent with HTTP status
200) and leaves the state untouched. -/
theorem getTask_busy_branch (st : ServerState) (id : String)
    (d : DeviceRecord) (hid : ¬ id = "")
    (hrec : findDevice st.deviceStatus id = some d)
    (hbusy : (truthy d.isBusy || jsGt d.memory 350) = true) :
    getTask st (some id) =
      (⟨200, 403,
         some ("设备" ++ id ++ "忙（" ++ busyReason d.isBusy ++ "）"),
         none⟩, st) := by
  unfold getTask
  simp [jsFalsy, hid, hrec, hbusy]

/-- In `/get-task`, an eligible device with a non-empty queue is assigned
the head task, which is removed from the queue. -/
theorem getTask_assign_branch (st : ServerState) (id : String)
    (d : DeviceRecord) (t : GuideTask) (rest : List GuideTask)
    (hid : ¬ id = "")
    (hrec : findDevice st.deviceStatus id = some d)
    (hel : (truthy d.isBusy || jsGt d.memory 350) = false)
    (hq : st.guideTaskQueue = t :: rest) :
    getTask st (some id) =
      (⟨200, 200, none, some t⟩, { st with guideTaskQueue := rest }) := by
  unfold getTask
  simp [jsFalsy, hid, hrec, hel, hq]

/-- In `/get-task`, an eligible device facing an empty queue receives the
204 body and the state is untouched. -/
theorem getTask_empty_branch (st : ServerState) (id : String)
    (d : DeviceRecord) (hid : ¬ id = "")
    (hrec : findDevice st.deviceStatus id = some d)
    (hel : (truthy d.isBusy || jsGt d.memory 350) = false)
    (hq : st.guideTaskQueue = []) :
    getTask st (some id) =
      (⟨200, 204, some ("当前无待分配任务"), none⟩, st) := by
  unfold getTask
  simp [jsFalsy, hid, hrec, hel, hq]

/-! ### Claims -/

/-- C1: for every registry state and every provisioned (non-empty) device
id, `/get-task` never assigns a task to a device whose record shows
`busy = true` or `memoryMB > 350`: in those states the response is the
Busy (403) body with no task and the queue is unchanged; a response
carrying a task can only arise when `busy = false` and `memoryMB ≤ 350`. -/
theorem requestTask_health_gate (st : ServerState) (id : String) (b : Bool)
    (m : Int) (hid : ¬ id = "")
    (hrec : findDevice st.deviceStatus id = some ⟨.bool b, .num m⟩) :
    ((b = true ∨ 350 < m) →
      (getTask st (some id)).1.code = 403 ∧
      (getTask st (some id)).1.task = none ∧
      (getTask st (some id)).2.guideTaskQueue = st.guideTaskQueue) ∧
    ((getTask st (some id)).1.task.isSome = true → b = false ∧ m ≤ 350) := by
  constructor
  · intro h
    have hbusy : (truthy (JSVal.bool b) || jsGt (JSVal.num m) 350) = true := by
      rcases h with h | h
      · simp [truthy, h]
      · simp only [truthy, jsGt, jsToNumber, Bool.or_eq_true, bne_iff_ne,
          decide_eq_true_eq]
        exact Or.inr h
    rw [getTask_busy_branch st id _ hid hrec hbusy]
    exact ⟨rfl, rfl, rfl⟩
  · intro htask
    constructor
    · by_contra hbne
      have hb : b = true := by
        cases b
        · exact absurd rfl hbne
        · rfl
      rw [getTask_busy_branch st id _ hid hrec (by simp [truthy, hb])]
        at htask
      simp at htask
    · by_contra hm
      push_neg at hm
      have hbusy : (truthy (JSVal.bool b) || jsGt (JSVal.num m) 350) =
          true := by
        simp only [truthy, jsGt, jsToNumber, Bool.or_eq_true,
          decide_eq_true_eq]
        exact Or.inr hm
      rw [getTask_busy_branch st id _ hid hrec hbusy] at htask
      simp at htask

/-- Witness for `requestTask_health_gate` at the busy one-screen state. -/
theorem requestTask_health_gate_witness :
    (¬ "hospital-screen-1" = "") ∧
    findDevice stBusy.deviceStatus "hospital-screen-1" =
      some ⟨.bool true, .num 120⟩ ∧
    (((true = true ∨ (350 : Int) < 120) →
        (getTask stBusy (some ("hospital-screen-1"))).1.code = 403 ∧
        (getTask stBusy (some ("hospital-screen-1"))).1.task = none ∧
        (getTask stBusy (some ("hospital-screen-1"))).2.guideTaskQueue =
          stBusy.guideTaskQueue) ∧
      ((getTask stBusy (some ("hospital-screen-1"))).1.task.isSome = true →
        true = false ∧ (120 : Int) ≤ 350)) :=
  ⟨by decide, by decide,
    requestTask_health_gate stBusy "hospital-screen-1" true 120 (by decide)
      (by decide)⟩

/-- C2: dispatch is FIFO and exactly-once: with the queue holding tasks
T1,T2,T3 in insertion order and a device whose record is `busy = false,
memoryMB = 100`, three successive `/get-task` calls return T1, then T2,
then T3, each removing exactly the head task, and a fourth call returns
the empty-queue 204 body (not an error) leaving the state unchanged. -/
theorem requestTask_fifo_exactly_once (st : ServerState) (id : String)
    (a b c : GuideTask) (hid : ¬ id = "")
    (hrec : findDevice st.deviceStatus id = some ⟨.bool false, .num 100⟩)
    (hq : st.guideTaskQueue = [a, b, c]) :
    getTask st (some id) =
      (⟨200, 200, none, some a⟩, { st with guideTaskQueue := [b, c] }) ∧
    getTask { st with guideTaskQueue := [b, c] } (some id) =
      (⟨200, 200, none, some b⟩, { st with guideTaskQueue := [c] }) ∧
    getTask { st with guideTaskQueue := [c] } (some id) =
      (⟨200, 200, none, some c⟩, { st with guideTaskQueue := [] }) ∧
    getTask { st with guideTaskQueue := [] } (some id) =
      (⟨200, 204, some ("当前无待分配任务"), none⟩,
        { st with guideTaskQueue := [] }) := by
  have hel : (truthy (JSVal.bool false) || jsGt (JSVal.num 100) 350) =
      false := by decide
  exact ⟨getTask_assign_branch st id _ a [b, c] hid hrec hel hq,
    getTask_assign_branch _ id _ b [c] hid hrec hel rfl,
    getTask_assign_branch _ id _ c [] hid hrec hel rfl,
    getTask_empty_branch _ id _ hid hrec hel rfl⟩

/-- Witness for `requestTask_fifo_exactly_once` on the idle one-screen
state holding the three initial tasks. -/
theorem requestTask_fifo_exactly_once_witness :
    (¬ "hospital-screen-2" = "") ∧
    findDevice stIdle.deviceStatus "hospital-screen-2" =
      some ⟨.bool false, .num 100⟩ ∧
    stIdle.guideTaskQueue = [guideTask0, guideTask1, guideTask2] ∧
    (getTask stIdle (some ("hospital-screen-2")) =
      (⟨200, 200, none, some guideTask0⟩,
        { stIdle with guideTaskQueue := [guideTask1, guideTask2] }) ∧
    getTask { stIdle with guideTaskQueue := [guideTask1, guideTask2] }
        (some ("hospital-screen-2")) =
      (⟨200, 200, none, some guideTask1⟩,
        { stIdle with guideTaskQueue := [guideTask2] }) ∧
    getTask { stIdle with guideTaskQueue := [guideTask2] }
        (some ("hospital-screen-2")) =
      (⟨200, 200, none, some guideTask2⟩,
        { stIdle with guideTaskQueue := [] }) ∧
    getTask { stIdle with guideTaskQueue := [] }
        (some ("hospital-screen-2")) =
      (⟨200, 204, some ("当前无待分配任务"), none⟩,
        { stIdle with guideTaskQueue := [] })) :=
  ⟨by decide, by decide, rfl,
    requestTask_fifo_exactly_once stIdle "hospital-screen-2" guideTask0
      guideTask1 guideTask2 (by decide) (by decide) rfl⟩

/-- C3: the Busy result of `/get-task` carries the specific reason with a
two-branch policy: a record with `busy = true` yields the 403 body whose
message names the busy reason (运行中) regardless of memory, and a record
with `busy = false` and `memoryMB > 350` yields the 403 body whose message
names the over-memory reason (内存过高). -/
theorem requestTask_busy_reason (st : ServerState) (id : String) (b : Bool)
    (m : Int) (hid : ¬ id = "")
    (hrec : findDevice st.deviceStatus id = some ⟨.bool b, .num m⟩) :
    (b = true →
      (getTask st (some id)).1.code = 403 ∧
      (getTask st (some id)).1.msg =
        some ("设备" ++ id ++ "忙（" ++ "运行中" ++ "）")) ∧
    (b = false → 350 < m →
      (getTask st (some id)).1.code = 403 ∧
      (getTask st (some id)).1.msg =
        some ("设备" ++ id ++ "忙（" ++ "内存过高" ++ "）")) := by
  constructor
  · intro hb
    subst hb
    rw [getTask_busy_branch st id _ hid hrec (by simp [truthy])]
    exact ⟨rfl, by simp [busyReason, truthy]⟩
  · intro hb hm
    subst hb
    have hbusy : (truthy (JSVal.bool false) || jsGt (JSVal.num m) 350) =
        true := by
      simp only [truthy, jsGt, jsToNumber, Bool.or_eq_true,
        decide_eq_true_eq]
      exact Or.inr hm
    rw [getTask_busy_branch st id _ hid hrec hbusy]
    exact ⟨rfl, by simp [busyReason, truthy]⟩

/-- Witness for `requestTask_busy_reason` at the state reached by
`reportStatus("hospital-screen-5", true, 120)` from startup. -/
theorem requestTask_busy_reason_witness :
    (¬ "hospital-screen-5" = "") ∧
    findDevice stAfterBusyReport.deviceStatus "hospital-screen-5" =
      some ⟨.bool true, .num 120⟩ ∧
    ((true = true →
        (getTask stAfterBusyReport (some ("hospital-screen-5"))).1.code =
          403 ∧
        (getTask stAfterBusyReport (some ("hospital-screen-5"))).1.msg =
          some ("设备" ++ "hospital-screen-5" ++ "忙（" ++ "运行中" ++ "）")) ∧
      (true = false → 350 < (120 : Int) →
        (getTask stAfterBusyReport (some ("hospital-screen-5"))).1.code =
          403 ∧
        (getTask stAfterBusyReport (some ("hospital-screen-5"))).1.msg =
          some ("设备" ++ "hospital-screen-5" ++ "忙（" ++ "内存过高" ++ "）"))) :=
  ⟨by decide, by decide,
    requestTask_busy_reason stAfterBusyReport "hospital-screen-5" true 120
      (by decide) (by decide)⟩

/-- C4 counterexample: a busy device gets the 403 body over HTTP status
200, so the HTTP status of `/get-task` does not equal the body's `code`
field in the busy case. -/
theorem getTask_http_status_claim_false :
    (getTask stBusy (some ("hospital-screen-1"))).1.code = 403 ∧
    (getTask stBusy (some ("hospital-screen-1"))).1.status = 200 ∧
    ¬ (getTask stBusy (some ("hospital-screen-1"))).1.status =
        (getTask stBusy (some ("hospital-screen-1"))).1.code := by
  decide

/-- C4 amended: `/get-task` sets the HTTP status line only for the 400
(missing parameter) and 404 (unknown device) responses; the 403 (busy or
over memory), 200 (assignment) and 204 (empty queue) bodies are all sent
with HTTP status 200, so the status equals the body's `code` field exactly
in the 400, 404 and assignment cases. -/
theorem getTask_http_status (st : ServerState) (d : Option String) :
    (getTask st d).1.status =
      (if (getTask st d).1.code = 400 ∨ (getTask st d).1.code = 404
       then (getTask st d).1.code else 200) := by
  by_cases hf : jsFalsy d = true
  · unfold getTask
    rw [if_pos hf]
    simp
  · unfold getTask
    rw [if_neg hf]
    cases hfd : findDevice st.deviceStatus (d.getD "") with
    | none => simp [hfd]
    | some device =>
      by_cases hbusy :
          (truthy device.isBusy || jsGt device.memory 350) = true
      · simp only [hfd]
        rw [if_pos hbusy]
        simp
      · rw [Bool.not_eq_true, Bool.or_eq_false_iff] at hbusy
        cases hq : st.guideTaskQueue with
        | nil => simp [hfd, hbusy.1, hbusy.2, hq]
        | cons t rest => simp [hfd, hbusy.1, hbusy.2, hq]

/-- C5: a structurally complete report for a device id outside the
provisioned set yields the 404 body and leaves the whole server state —
in particular the registry — unchanged: no record is created for the
unknown identifier and no existing record is modified. -/
theorem reportStatus_unknown_device (st : ServerState) (id : String)
    (isBusy memory : JSVal) (hid : ¬ id = "")
    (hb : ¬ isBusy = JSVal.undef) (hm : ¬ memory = JSVal.undef)
    (hunk : findDevice st.deviceStatus id = none) :
    reportStatus st (some id) isBusy memory =
      (⟨404, 404, some ("设备ID不存在（需为hospital-screen-0至19）"), none⟩,
        st) := by
  unfold reportStatus
  simp [jsFalsy, hid, hb, hm, hunk]

/-- Witness for `reportStatus_unknown_device` at an id not provisioned in
the startup registry. -/
theorem reportStatus_unknown_device_witness :
    (¬ "no-such-screen" = "") ∧
    (¬ JSVal.bool false = JSVal.undef) ∧
    (¬ JSVal.num 90 = JSVal.undef) ∧
    findDevice initialState.deviceStatus "no-such-screen" = none ∧
    reportStatus initialState (some ("no-such-screen")) (JSVal.bool false)
        (JSVal.num 90) =
      (⟨404, 404, some ("设备ID不存在（需为hospital-screen-0至19）"), none⟩,
        initialState) :=
  ⟨by decide, by decide, by decide, by decide,
    reportStatus_unknown_device initialState "no-such-screen"
      (JSVal.bool false) (JSVal.num 90) (by decide) (by decide) (by decide)
      (by decide)⟩

/-- C6 counterexample: a report whose `isBusy` and `memory` fields are
present but are strings is accepted with the 200 body and overwrites the
device record with the mistyped values, so wrong-type reports are not
rejected. -/
theorem reportStatus_wrong_type_accepted :
    findDevice initialState.deviceStatus "hospital-screen-5" =
      some ⟨.bool false, .num 0⟩ ∧
    (reportStatus initialState (some ("hospital-screen-5"))
        (JSVal.str "yes") (JSVal.str "high")).1.code = 200 ∧
    ¬ (reportStatus initialState (some ("hospital-screen-5"))
        (JSVal.str "yes") (JSVal.str "high")).2.deviceStatus =
      initialState.deviceStatus ∧
    findDevice (reportStatus initialState (some ("hospital-screen-5"))
        (JSVal.str "yes") (JSVal.str "high")).2.deviceStatus
      "hospital-screen-5" = some ⟨.str "yes", .str "high"⟩ := by
  decide

/-- C6 amended: the report validation checks only that `deviceId` is
truthy and that `isBusy` and `memory` are present (`=== undefined`); a
present field of the wrong runtime type is accepted for a provisioned
device, answered with the 200 body, and overwrites the device record with
the received values as-is. -/
theorem reportStatus_presence_check_only (st : ServerState) (id : String)
    (isBusy memory : JSVal) (hid : ¬ id = "")
    (hb : ¬ isBusy = JSVal.undef) (hm : ¬ memory = JSVal.undef)
    (hknown : (findDevice st.deviceStatus id).isSome = true) :
    (reportStatus st (some id) isBusy memory).1.code = 200 ∧
    findDevice (reportStatus st (some id) isBusy memory).2.deviceStatus
      id = some ⟨isBusy, memory⟩ := by
  unfold reportStatus
  simp [jsFalsy, hid, hb, hm, hknown, findDevice_setDevice_self]

/-- Witness for `reportStatus_presence_check_only` with string-typed
fields on a provisioned device. -/
theorem reportStatus_presence_check_only_witness :
    (¬ "hospital-screen-0" = "") ∧
    (¬ JSVal.str "yes" = JSVal.undef) ∧
    (¬ JSVal.str "high" = JSVal.undef) ∧
    (findDevice initialState.deviceStatus "hospital-screen-0").isSome =
      true ∧
    ((reportStatus initialState (some ("hospital-screen-0"))
        (JSVal.str "yes") (JSVal.str "high")).1.code = 200 ∧
     findDevice (reportStatus initialState (some ("hospital-screen-0"))
        (JSVal.str "yes") (JSVal.str "high")).2.deviceStatus
       "hospital-screen-0" = some ⟨.str "yes", .str "high"⟩) :=
  ⟨by decide, by decide, by decide, by decide,
    reportStatus_presence_check_only initialState "hospital-screen-0"
      (JSVal.str "yes") (JSVal.str "high") (by decide) (by decide)
      (by decide) (by decide)⟩

/-- C7 counterexample: when "now" is exactly 02:00:00.000 local, the
strict `now > resetTime` comparison in `scheduleDailyReset` leaves the
target at today's 02:00, i.e. equal to "now" — not strictly after it. -/
theorem dailyReset_at_0200_not_strict :
    scheduleDailyResetTarget ⟨0, 7200000⟩ = ⟨0, 7200000⟩ ∧
    ¬ (⟨0, 7200000⟩ : LocalTime).toMs <
        (scheduleDailyResetTarget ⟨0, 7200000⟩).toMs := by
  decide

/-- C7 amended: the daily-reset target is 02:00 of the same day when "now"
is at or before 02:00, and 02:00 of the next day when "now" is strictly
past 02:00; the target is never before "now" and is strictly after "now"
in every case except "now" exactly 02:00:00.000, where it equals "now". -/
theorem dailyReset_target_correct (now : LocalTime)
    (hms : now.msOfDay < 86400000) :
    (now.msOfDay ≤ 7200000 →
      scheduleDailyResetTarget now = ⟨now.day, 7200000⟩) ∧
    (7200000 < now.msOfDay →
      scheduleDailyResetTarget now = ⟨now.day + 1, 7200000⟩) ∧
    now.toMs ≤ (scheduleDailyResetTarget now).toMs ∧
    (¬ now.msOfDay = 7200000 →
      now.toMs < (scheduleDailyResetTarget now).toMs) := by
  unfold scheduleDailyResetTarget LocalTime.toMs
  by_cases h : now.day * 86400000 + 7200000 < now.day * 86400000 + now.msOfDay
  · rw [if_pos h]
    dsimp only
    refine ⟨fun hle => absurd h (by omega), fun _ => rfl, by omega,
      fun _ => by omega⟩
  · rw [if_neg h]
    dsimp only
    refine ⟨fun _ => rfl, fun hlt => absurd h (by omega), by omega,
      fun hne => by omega⟩

/-- Witness for `dailyReset_target_correct` at 01:00 local time: the
target is the same day's 02:00, strictly after "now". -/
theorem dailyReset_target_correct_witness :
    (3600000 : Nat) < 86400000 ∧
    (((3600000 : Nat) ≤ 7200000 →
        scheduleDailyResetTarget ⟨5, 3600000⟩ = ⟨5, 7200000⟩) ∧
      ((7200000 : Nat) < 3600000 →
        scheduleDailyResetTarget ⟨5, 3600000⟩ = ⟨6, 7200000⟩) ∧
      (⟨5, 3600000⟩ : LocalTime).toMs ≤
        (scheduleDailyResetTarget ⟨5, 3600000⟩).toMs ∧
      (¬ (3600000 : Nat) = 7200000 →
        (⟨5, 3600000⟩ : LocalTime).toMs <
          (scheduleDailyResetTarget ⟨5, 3600000⟩).toMs)) :=
  ⟨by decide, dailyReset_target_correct ⟨5, 3600000⟩ (by decide)⟩

/-- C8: `handleSdkError` implements the closed per-code policy table:
10001 only appends a blocking alert (no retry is scheduled); 10002 logs
and schedules exactly one reinitialization 5000 ms later without touching
the pending daily-reset target; 30001 only switches to the default
background; every other code only appends a log line — in particular it
is never treated as fatal and changes no other state. -/
theorem handleSdkError_policy (st : DeviceState) (errorCode : Int) :
    handleSdkError st 10001 =
      { st with alerts :=
          st.alerts ++ [("数字人容器初始化失败，请检查页面结构")] } ∧
    handleSdkError st 10002 =
      { st with logs := st.logs ++ [("尝试重新连接SDK...")],
                reinitDelays := st.reinitDelays ++ [5000] } ∧
    handleSdkError st 30001 = { st with usingDefaultBackground := true } ∧
    (¬ errorCode = 10001 → ¬ errorCode = 10002 → ¬ errorCode = 30001 →
      handleSdkError st errorCode =
        { st with logs := st.logs ++
            [("未处理的错误码：" ++ toString errorCode ++ "，请参考官方文档")] }) := by
  refine ⟨rfl, rfl, rfl, ?_⟩
  intro h1 h2 h3
  unfold handleSdkError
  rw [if_neg (by simp [h1]), if_neg (by simp [h2]), if_neg (by simp [h3])]

/-- Witness for `handleSdkError_policy` at the concrete device state
`dev0` with the unrecognized code 99999. -/
theorem handleSdkError_policy_witness :
    handleSdkError dev0 10001 =
      { dev0 with alerts :=
          dev0.alerts ++ [("数字人容器初始化失败，请检查页面结构")] } ∧
    handleSdkError dev0 10002 =
      { dev0 with logs := dev0.logs ++ [("尝试重新连接SDK...")],
                  reinitDelays := dev0.reinitDelays ++ [5000] } ∧
    handleSdkError dev0 30001 =
      { dev0 with usingDefaultBackground := true } ∧
    handleSdkError dev0 99999 =
      { dev0 with logs := dev0.logs ++
          [("未处理的错误码：" ++ toString (99999 : Int) ++ "，请参考官方文档")] } :=
  ⟨(handleSdkError_policy dev0 99999).1,
    (handleSdkError_policy dev0 99999).2.1,
    (handleSdkError_policy dev0 99999).2.2.1,
    (handleSdkError_policy dev0 99999).2.2.2 (by decide) (by decide)
      (by decide)⟩

/-- C9: `/get-task` never modifies any device record, for any input and
any server state; it removes a task from the queue exactly when its body
carries code 200, and then the removed task is the head and the remaining
queue the tail; on every other outcome the queue is unchanged and no task
is carried. -/
theorem getTask_frame (st : ServerState) (d : Option String) :
    (getTask st d).2.deviceStatus = st.deviceStatus ∧
    ((getTask st d).1.code = 200 →
      (getTask st d).1.task = st.guideTaskQueue.head? ∧
      (getTask st d).2.guideTaskQueue = st.guideTaskQueue.tail ∧
      ¬ st.guideTaskQueue = []) ∧
    (¬ (getTask st d).1.code = 200 →
      (getTask st d).2.guideTaskQueue = st.guideTaskQueue ∧
      (getTask st d).1.task = none) := by
  by_cases hf : jsFalsy d = true
  · unfold getTask
    rw [if_pos hf]
    simp
  · unfold getTask
    rw [if_neg hf]
    cases hfd : findDevice st.deviceStatus (d.getD "") with
    | none => simp [hfd]
    | some device =>
      by_cases hbusy :
          (truthy device.isBusy || jsGt device.memory 350) = true
      · simp only [hfd]
        rw [if_pos hbusy]
        simp
      · rw [Bool.not_eq_true, Bool.or_eq_false_iff] at hbusy
        cases hq : st.guideTaskQueue with
        | nil => simp [hfd, hbusy.1, hbusy.2, hq]
        | cons t rest => simp [hfd, hbusy.1, hbusy.2, hq]

/-- Witness for `getTask_frame` at the idle one-screen state, where the
code-200 branch applies. -/
theorem getTask_frame_witness :
    (getTask stIdle (some ("hospital-screen-2"))).2.deviceStatus =
      stIdle.deviceStatus ∧
    ((getTask stIdle (some ("hospital-screen-2"))).1.task =
      stIdle.guideTaskQueue.head? ∧
     (getTask stIdle (some ("hospital-screen-2"))).2.guideTaskQueue =
      stIdle.guideTaskQueue.tail ∧
     ¬ stIdle.guideTaskQueue = []) :=
  ⟨(getTask_frame stIdle (some ("hospital-screen-2"))).1,
    (getTask_frame stIdle (some ("hospital-screen-2"))).2.1 (by decide)⟩

/-- C10: a request whose `deviceId` field is present but equal to the
empty string is classified as a 400 missing-parameter error — not as a
404 unknown device — by both handlers, and the server state is left
untouched: the falsiness check fires before any registry lookup. -/
theorem emptyDeviceId_is_badRequest (st : ServerState)
    (isBusy memory : JSVal) :
    reportStatus st (some ("")) isBusy memory =
      (⟨400, 400, some ("参数不全（需deviceId/isBusy/memory）"), none⟩, st) ∧
    getTask st (some ("")) =
      (⟨400, 400, some ("缺少deviceId参数"), none⟩, st) :=
  ⟨rfl, rfl⟩
